import Mathlib

/-!
Verification of the outline CLI: a shallow embedding of the API transport
client (src/api/client.go) and the command dispatcher (src/cmd/root.go),
together with theorems settling the spec claims about them.

Conventions of the embedding:
* Go strings and byte slices are Lean `String`s.
* A JSON response body is either a parsed JSON value (`Body.json`) or a
  byte string that is not valid JSON (`Body.malformed`); `json.Unmarshal`
  into the Go target structs is modelled by the `decode...` functions below,
  following encoding/json semantics for those structs (object or null
  succeeds, absent fields keep zero values, a matching field of the wrong
  JSON type fails, later duplicate keys override earlier ones).
* The HTTP round trip (`httpClient.Do` followed by `io.ReadAll`) is an
  explicit parameter `exec : HTTPRequest → ExecOutcome`, so theorems
  quantify over every possible network behaviour.
* The local filesystem (the current working directory) is an association
  list from filename to content. `os.WriteFile` opens with
  O_CREATE|O_TRUNC and then writes, so it is not atomic: its outcome is
  decided by an explicit write environment, which may fail at the open
  (directory unchanged), fail after persisting only a prefix of the data
  into the already-truncated file, or succeed.
* Each transport operation returns its Go result paired with the list of
  lines it printed in verbose mode (Go prints a header map in randomized
  iteration order, so the log is diagnostic only and its exact order is
  not part of any claim).
-/

namespace OutlineCli

/-- Config, from src/config/config.go: `APIKey`, `OutlineURL`. -/
structure Config where
  APIKey : String
  OutlineURL : String

/-- Document, from src/api/client.go lines 36-41. -/
structure Document where
  ID : String
  Title : String
  Text : String
  Version : Int

/-- The zero value of the Go `Document` struct. -/
def zeroDocument : Document := ⟨"", "", "", 0⟩

/-- `normalizeURL`, from src/api/client.go lines 43-45:
`strings.TrimRight(baseURL, "/")` removes every trailing '/'. -/
def normalizeURL (baseURL : String) : String :=
  String.mk ((baseURL.data.reverse.dropWhile (fun c => c == '/')).reverse)

/-- A second definition that follows the words of the spec sentence
"strips exactly one trailing path separator", for comparison with
`normalizeURL` (which is translated from the source). -/
def stripOneTrailingSlashSpec (s : String) : String :=
  match s.data.reverse with
  | '/' :: rest => String.mk rest.reverse
  | _ => s

/-- JSON values, used to model request payloads and response bodies. -/
inductive Json where
  | null : Json
  | bool (b : Bool) : Json
  | num (n : Int) : Json
  | str (s : String) : Json
  | arr (xs : List Json) : Json
  | obj (fields : List (String × Json)) : Json

def escapeChar (c : Char) : String :=
  if c = '"' then "\\\"" else if c = '\\' then "\\\\" else String.singleton c

def escapeString (s : String) : String :=
  String.join (s.data.map escapeChar)

mutual

/-- Render a JSON value back to a byte string (used where the Go code
interpolates the raw response body into an error message). -/
def Json.render : Json → String
  | .null => "null"
  | .bool b => if b then "true" else "false"
  | .num n => toString n
  | .str s => "\"" ++ escapeString s ++ "\""
  | .arr xs => "[" ++ Json.renderItems xs ++ "]"
  | .obj fields => "\x7b" ++ Json.renderFields fields ++ "\x7d"

def Json.renderItems : List Json → String
  | [] => ""
  | [x] => Json.render x
  | x :: xs => Json.render x ++ "," ++ Json.renderItems xs

def Json.renderFields : List (String × Json) → String
  | [] => ""
  | [(k, v)] => "\"" ++ escapeString k ++ "\":" ++ Json.render v
  | (k, v) :: kvs => "\"" ++ escapeString k ++ "\":" ++ Json.render v ++ "," ++ Json.renderFields kvs

end

/-- A response body as handed to `json.Unmarshal`: either valid JSON or a
raw byte string that is not valid JSON. -/
inductive Body where
  | json (j : Json) : Body
  | malformed (raw : String) : Body

/-- The raw bytes of a response body, as interpolated into error messages. -/
def rawBody : Body → String
  | .json j => j.render
  | .malformed raw => raw

def Json.isStr : Json → Bool
  | .str _ => true
  | _ => false

def Json.asStr : Json → String
  | .str s => s
  | _ => ""

def Json.isNum : Json → Bool
  | .num _ => true
  | _ => false

def Json.asNum : Json → Int
  | .num n => n
  | _ => 0

/-- encoding/json: every occurrence of `key` must hold a JSON string for the
unmarshal of a string-typed field to succeed. -/
def strFieldOk (fields : List (String × Json)) (key : String) : Bool :=
  fields.all fun kv => if kv.1 = key then kv.2.isStr else true

/-- encoding/json: the last occurrence of `key` wins; an absent field keeps
the zero value "". -/
def strFieldVal (fields : List (String × Json)) (key : String) : String :=
  fields.foldl (fun acc kv => if kv.1 = key then kv.2.asStr else acc) ""

def intFieldOk (fields : List (String × Json)) (key : String) : Bool :=
  fields.all fun kv => if kv.1 = key then kv.2.isNum else true

def intFieldVal (fields : List (String × Json)) (key : String) : Int :=
  fields.foldl (fun acc kv => if kv.1 = key then kv.2.asNum else acc) 0

/-- The anonymous error struct of src/api/client.go lines 99-102:
fields `Error` and `Message` with JSON tags "error" and "message". -/
structure ApiError where
  Error : String
  Message : String

/-- `json.Unmarshal(respBody, &apiError)` from src/api/client.go line 103:
succeeds on a JSON object (absent fields zero, string fields required to be
strings) and on JSON null; fails on any other JSON value and on bytes that
are not valid JSON. -/
def decodeApiError : Body → Option ApiError
  | .malformed _ => none
  | .json .null => some ⟨"", ""⟩
  | .json (.obj fields) =>
    if strFieldOk fields "error" && strFieldOk fields "message" then
      some ⟨strFieldVal fields "error", strFieldVal fields "message"⟩
    else none
  | .json _ => none

/-- Unmarshal of one `Document` (JSON tags id, title, text, version). -/
def decodeDocument : Json → Option Document
  | .null => some zeroDocument
  | .obj fields =>
    if strFieldOk fields "id" && strFieldOk fields "title" &&
        strFieldOk fields "text" && intFieldOk fields "version" then
      some ⟨strFieldVal fields "id", strFieldVal fields "title",
            strFieldVal fields "text", intFieldVal fields "version"⟩
    else none
  | _ => none

def dataFieldOkDoc (fields : List (String × Json)) : Bool :=
  fields.all fun kv => if kv.1 = "data" then (decodeDocument kv.2).isSome else true

def dataFieldValDoc (fields : List (String × Json)) : Document :=
  fields.foldl
    (fun acc kv => if kv.1 = "data" then (decodeDocument kv.2).getD acc else acc)
    zeroDocument

/-- `json.Unmarshal(respBody, &response)` with
`response struct { Data Document }` from src/api/client.go lines 109-114:
an object without a "data" field leaves the zero `Document`. -/
def decodeInfoResponse : Body → Option Document
  | .malformed _ => none
  | .json .null => some zeroDocument
  | .json (.obj fields) =>
    if dataFieldOkDoc fields then some (dataFieldValDoc fields) else none
  | .json _ => none

def decodeDocumentList : Json → Option (List Document)
  | .null => some []
  | .arr xs => xs.mapM decodeDocument
  | _ => none

def dataFieldOkList (fields : List (String × Json)) : Bool :=
  fields.all fun kv => if kv.1 = "data" then (decodeDocumentList kv.2).isSome else true

def dataFieldValList (fields : List (String × Json)) : List Document :=
  fields.foldl
    (fun acc kv => if kv.1 = "data" then (decodeDocumentList kv.2).getD acc else acc)
    []

/-- `json.Unmarshal(body, &response)` with
`response struct { Data []Document }` from src/api/client.go lines 217-221. -/
def decodeListResponse : Body → Option (List Document)
  | .malformed _ => none
  | .json .null => some []
  | .json (.obj fields) =>
    if dataFieldOkList fields then some (dataFieldValList fields) else none
  | .json _ => none

/-- An outgoing HTTP request as assembled by the transport client. -/
structure HTTPRequest where
  method : String
  url : String
  headers : List (String × String)
  body : Option Json

/-- `http.Header` lookup on the assembled header list. -/
def headerVal (headers : List (String × String)) (key : String) : Option String :=
  match headers with
  | [] => none
  | (k, v) :: rest => if k = key then some v else headerVal rest key

/-- The request built by `GetDocument`, src/api/client.go lines 48-72:
POST to `{base}/api/documents.info`, payload `{id}`, headers set in order
Authorization, Accept, Content-Type. -/
def getDocumentRequest (cfg : Config) (docID : String) : HTTPRequest :=
  { method := "POST"
    url := normalizeURL cfg.OutlineURL ++ "/api/documents.info"
    headers := [("Authorization", "Bearer " ++ cfg.APIKey),
                ("Accept", "application/json"),
                ("Content-Type", "application/json")]
    body := some (Json.obj [("id", Json.str docID)]) }

/-- The request built by `UpdateDocument`, src/api/client.go lines 120-142:
POST to `{base}/api/documents.update`, payload `{id, text}`, headers set in
order Authorization, Content-Type, Accept. -/
def updateDocumentRequest (cfg : Config) (docID content : String) : HTTPRequest :=
  { method := "POST"
    url := normalizeURL cfg.OutlineURL ++ "/api/documents.update"
    headers := [("Authorization", "Bearer " ++ cfg.APIKey),
                ("Content-Type", "application/json"),
                ("Accept", "application/json")]
    body := some (Json.obj [("id", Json.str docID), ("text", Json.str content)]) }

/-- The request built by `ListDocuments`, src/api/client.go lines 177-188:
POST to `{base}/api/documents.list`, no body, headers set in order
Authorization, Accept — no Content-Type header is set. -/
def listDocumentsRequest (cfg : Config) : HTTPRequest :=
  { method := "POST"
    url := normalizeURL cfg.OutlineURL ++ "/api/documents.list"
    headers := [("Authorization", "Bearer " ++ cfg.APIKey),
                ("Accept", "application/json")]
    body := none }

/-- An HTTP response after the body has been fully buffered. -/
structure HTTPResponse where
  StatusCode : Nat
  body : Body

/-- Outcome of `httpClient.Do` followed by `io.ReadAll(resp.Body)`:
a transport failure, a failure while reading the body, or a buffered
response. -/
inductive ExecOutcome where
  | transportError (e : String) : ExecOutcome
  | bodyReadError (e : String) : ExecOutcome
  | response (r : HTTPResponse) : ExecOutcome

/-- The lines printed before the request is executed when verbose is on
(Go iterates the header map in randomized order; the log is diagnostic
only). -/
def requestLog (req : HTTPRequest) : List String :=
  ("Making request to: " ++ req.url) ::
  "Request headers:" ::
  req.headers.map (fun kv => "  " ++ kv.1 ++ ": " ++ kv.2) ++
  (match req.body with
   | some b => ["Request body: " ++ Json.render b]
   | none => [])

/-- The lines printed after the response body is read when verbose is on.
Go prints `resp.Status`, a text derived from the status code. -/
def responseLog (r : HTTPResponse) : List String :=
  ["Response status: " ++ toString r.StatusCode,
   "Response body: " ++ rawBody r.body]

/-- Cause text produced by encoding/json when unmarshalling fails; its exact
wording comes from the library and is modelled by a fixed placeholder. -/
def unmarshalFailureMsg : String := "json: cannot unmarshal value"

/-- `(c *client) GetDocument`, src/api/client.go lines 47-117.
Returns the Go result (`*Document, error` as `Except`) paired with the
verbose diagnostic lines. -/
def client.GetDocument (cfg : Config) (docID : String) (verbose : Bool)
    (exec : HTTPRequest → ExecOutcome) : Except String Document × List String :=
  let req := getDocumentRequest cfg docID
  match exec req with
  | .transportError e =>
    (.error ("executing request: " ++ e), if verbose then requestLog req else [])
  | .bodyReadError e =>
    (.error ("reading response body: " ++ e), if verbose then requestLog req else [])
  | .response r =>
    let logs := if verbose then requestLog req ++ responseLog r else []
    if r.StatusCode = 200 then
      match decodeInfoResponse r.body with
      | some doc => (.ok doc, logs)
      | none =>
        (.error ("decoding response (status " ++ toString r.StatusCode ++ "): " ++
          unmarshalFailureMsg ++ "\nBody: " ++ rawBody r.body), logs)
    else
      match decodeApiError r.body with
      | some ae => (.error ("API error: " ++ ae.Error ++ " - " ++ ae.Message), logs)
      | none =>
        (.error ("unexpected status code: " ++ toString r.StatusCode ++
          ", body: " ++ rawBody r.body), logs)

/-- `(c *client) UpdateDocument`, src/api/client.go lines 119-174. -/
def client.UpdateDocument (cfg : Config) (docID content : String) (verbose : Bool)
    (exec : HTTPRequest → ExecOutcome) : Except String Unit × List String :=
  let req := updateDocumentRequest cfg docID content
  match exec req with
  | .transportError e =>
    (.error ("executing request: " ++ e), if verbose then requestLog req else [])
  | .bodyReadError e =>
    (.error ("reading response body: " ++ e), if verbose then requestLog req else [])
  | .response r =>
    let logs := if verbose then requestLog req ++ responseLog r else []
    if r.StatusCode = 200 then
      (.ok (), logs)
    else
      (.error ("unexpected status code: " ++ toString r.StatusCode ++
        ", body: " ++ rawBody r.body), logs)

/-- `(c *client) ListDocuments`, src/api/client.go lines 176-225. -/
def client.ListDocuments (cfg : Config) (verbose : Bool)
    (exec : HTTPRequest → ExecOutcome) : Except String (List Document) × List String :=
  let req := listDocumentsRequest cfg
  match exec req with
  | .transportError e =>
    (.error ("executing request: " ++ e), if verbose then requestLog req else [])
  | .bodyReadError e =>
    (.error ("reading response body: " ++ e), if verbose then requestLog req else [])
  | .response r =>
    let logs := if verbose then requestLog req ++ responseLog r else []
    if r.StatusCode = 200 then
      match decodeListResponse r.body with
      | some docs => (.ok docs, logs)
      | none =>
        (.error ("decoding response (status " ++ toString r.StatusCode ++ "): " ++
          unmarshalFailureMsg ++ "\nBody: " ++ rawBody r.body), logs)
    else
      (.error ("unexpected status code: " ++ toString r.StatusCode ++
        ", body: " ++ rawBody r.body), logs)

/-- The `Client` interface of src/api/client.go lines 13-17, as a record of
the three declared operations; any record of this type is a valid Client
(test doubles included). -/
structure Client where
  GetDocument : String → Bool → Except String Document
  UpdateDocument : String → String → Bool → Except String Unit
  ListDocuments : Bool → Except String (List Document)

/-- The working directory: filenames mapped to file contents. -/
abbrev FS := List (String × String)

/-- `os.WriteFile` with truncation: the new content replaces any old one. -/
def fsWrite (fs : FS) (name content : String) : FS :=
  (name, content) :: fs

/-- `os.ReadFile`: `none` when no such file exists. -/
def fsRead (fs : FS) (name : String) : Option String :=
  match fs with
  | [] => none
  | (n, c) :: rest => if n = name then some c else fsRead rest name

/-- The text of the `*os.PathError` Go produces for a missing file
(the cause wrapped by the push command's "reading file: " stage tag). -/
def errFileNotFound (name : String) : String :=
  "open " ++ name ++ ": no such file or directory"

/-- A call made against the Client interface, recorded with its
arguments. -/
inductive ClientCall where
  | GetDocument (docID : String) (verbose : Bool) : ClientCall
  | UpdateDocument (docID content : String) (verbose : Bool) : ClientCall
  | ListDocuments (verbose : Bool) : ClientCall

/-- Observable outcome of one command run: the `RunE` result, the working
directory afterwards, and the Client calls that were made. -/
structure CmdOut where
  result : Except String Unit
  fs : FS
  calls : List ClientCall

/-- Possible outcomes of one `os.WriteFile` call, decided by the
environment: the open itself fails (nothing changes), the write fails
after `written` bytes went into the already-truncated file, or the call
succeeds. `writeError` with `written` equal to the content length also
covers a failing `Close` after a complete write. -/
inductive WriteOutcome where
  | openError (e : String) : WriteOutcome
  | writeError (written : Nat) (e : String) : WriteOutcome
  | success : WriteOutcome

/-- The environment's decision for each `os.WriteFile(name, content)`. -/
abbrev WriteEnv := String → String → WriteOutcome

/-- The environment in which every write completes. -/
def writeOk : WriteEnv := fun _ _ => .success

/-- `os.WriteFile(name, data, 0644)`: open with O_CREATE|O_TRUNC, then
write. On an open error the directory is unchanged; on a write error the
file holds the prefix of the data that was written before the failure;
on success it holds the full data. -/
def osWriteFile (fs : FS) (name content : String) (w : WriteEnv) :
    Except String Unit × FS :=
  match w name content with
  | .openError e => (.error e, fs)
  | .writeError k e => (.error e, fsWrite fs name (content.take k))
  | .success => (.ok (), fsWrite fs name content)

/-- `pullCmd.RunE`, src/cmd/root.go lines 34-53: load config, build the
client, fetch the document, write its `Text` to `{id}.md` via
`os.WriteFile`; a write failure is wrapped as "writing file: {cause}". -/
def pullCmd (loadCfg : Except String Config) (factory : Config → Client)
    (docID : String) (verbose : Bool) (fs : FS) (w : WriteEnv) : CmdOut :=
  match loadCfg with
  | .error e => ⟨.error ("loading config: " ++ e), fs, []⟩
  | .ok cfg =>
    let c := factory cfg
    match c.GetDocument docID verbose with
    | .error e =>
      ⟨.error ("fetching document: " ++ e), fs, [.GetDocument docID verbose]⟩
    | .ok doc =>
      match osWriteFile fs (docID ++ ".md") doc.Text w with
      | (.error e, fs2) =>
        ⟨.error ("writing file: " ++ e), fs2, [.GetDocument docID verbose]⟩
      | (.ok _, fs2) => ⟨.ok (), fs2, [.GetDocument docID verbose]⟩

/-- `pushCmd.RunE`, src/cmd/root.go lines 60-79: load config, build the
client, read `{id}.md`, send its content as a full-text update. -/
def pushCmd (loadCfg : Except String Config) (factory : Config → Client)
    (docID : String) (verbose : Bool) (fs : FS) : CmdOut :=
  match loadCfg with
  | .error e => ⟨.error ("loading config: " ++ e), fs, []⟩
  | .ok cfg =>
    let c := factory cfg
    let filename := docID ++ ".md"
    match fsRead fs filename with
    | none => ⟨.error ("reading file: " ++ errFileNotFound filename), fs, []⟩
    | some content =>
      match c.UpdateDocument docID content verbose with
      | .error e =>
        ⟨.error ("updating document: " ++ e), fs,
          [.UpdateDocument docID content verbose]⟩
      | .ok _ => ⟨.ok (), fs, [.UpdateDocument docID content verbose]⟩

/-- The configuration used by the repo's own tests (root_test.go). -/
def cfgEx : Config := ⟨"test-key", "https://test.outline.com"⟩

/-- A stub client whose GetDocument succeeds with a fixed document. -/
def stubClientOk : Client :=
  { GetDocument := fun _ _ => .ok ⟨"doc123", "Test", "# Test Content", 1⟩
    UpdateDocument := fun _ _ _ => .ok ()
    ListDocuments := fun _ => .ok [] }

/-- A stub client whose GetDocument fails with the scripted error
"API error". -/
def stubClientErr : Client :=
  { GetDocument := fun _ _ => .error "API error"
    UpdateDocument := fun _ _ _ => .ok ()
    ListDocuments := fun _ => .ok [] }

/-- A network behaviour answering every request with status 404 and a
structured error envelope. -/
def execApiError : HTTPRequest → ExecOutcome := fun _ =>
  .response ⟨404, .json (.obj [("error", .str "not_found"), ("message", .str "missing")])⟩

/-- An environment in which every `os.WriteFile` fails after persisting a
single byte of the data into the truncated file. -/
def wFailPartial : WriteEnv := fun _ _ => .writeError 1 "disk full"

/-- Reading back a freshly written file yields the written content. -/
theorem fsRead_fsWrite (fs : FS) (name content : String) :
    fsRead (fsWrite fs name content) name = some content := by
  simp [fsRead, fsWrite]

/-- `normalizeURL` ignores one appended trailing slash. -/
theorem normalizeURL_append_slash (b : String) :
    normalizeURL (b ++ "/") = normalizeURL b := by
  cases b with
  | mk l =>
    show String.mk (((l ++ ['/']).reverse.dropWhile _).reverse) = _
    simp [normalizeURL, List.reverse_append]

/-- Claim C1: pulling a document whose fetched `Text` is `t` and then
pushing the unchanged file `{id}.md` makes push invoke UpdateDocument with
payload exactly `t`. -/
theorem pull_then_push_sends_fetched_text (cfg : Config) (c : Client)
    (id t : String) (v v' : Bool) (fs : FS) (w : WriteEnv) (doc : Document)
    (hget : c.GetDocument id v = .ok doc) (ht : doc.Text = t)
    (hw : w (id ++ ".md") doc.Text = .success) :
    (pushCmd (.ok cfg) (fun _ => c) id v'
        (pullCmd (.ok cfg) (fun _ => c) id v fs w).fs).calls
      = [ClientCall.UpdateDocument id t v'] := by
  subst ht
  have hfs : (pullCmd (.ok cfg) (fun _ => c) id v fs w).fs
      = fsWrite fs (id ++ ".md") doc.Text := by
    simp [pullCmd, osWriteFile, hget, hw]
  rw [hfs]
  simp only [pushCmd, fsRead_fsWrite]
  cases c.UpdateDocument id doc.Text v' <;> rfl

/-- Witness for C1: the stub client returning text "# Test Content" for
"doc123" makes pull-then-push call UpdateDocument with that very text. -/
theorem pull_then_push_sends_fetched_text_witness :
    (pushCmd (.ok cfgEx) (fun _ => stubClientOk) "doc123" false
        (pullCmd (.ok cfgEx) (fun _ => stubClientOk) "doc123" false [] writeOk).fs).calls
      = [ClientCall.UpdateDocument "doc123" "# Test Content" false] :=
  pull_then_push_sends_fetched_text cfgEx stubClientOk "doc123" "# Test Content"
    false false [] writeOk ⟨"doc123", "Test", "# Test Content", 1⟩ rfl rfl rfl

/-- Claim C6: when `{id}.md` does not exist, push fails with an error
tagged "reading file: " and makes no Client call at all — in particular
UpdateDocument is never invoked. -/
theorem push_missing_file_no_update_call (cfg : Config) (c : Client)
    (id : String) (v : Bool) (fs : FS)
    (hmiss : fsRead fs (id ++ ".md") = none) :
    pushCmd (.ok cfg) (fun _ => c) id v fs
      = ⟨.error ("reading file: " ++ errFileNotFound (id ++ ".md")), fs, []⟩ := by
  simp [pushCmd, hmiss]

/-- Witness for C6: pushing "doc456" against an empty working directory. -/
theorem push_missing_file_no_update_call_witness :
    pushCmd (.ok cfgEx) (fun _ => stubClientOk) "doc456" false []
      = ⟨.error ("reading file: " ++ errFileNotFound ("doc456" ++ ".md")), [], []⟩ :=
  push_missing_file_no_update_call cfgEx stubClientOk "doc456" false [] rfl

/-- Claim C7: when GetDocument succeeds and the write completes, pull
writes the document's `Text` verbatim to `{id}.md` — the file afterwards
holds exactly that text. -/
theorem pull_writes_text_verbatim (cfg : Config) (c : Client) (id : String)
    (v : Bool) (fs : FS) (w : WriteEnv) (doc : Document)
    (hget : c.GetDocument id v = .ok doc)
    (hw : w (id ++ ".md") doc.Text = .success) :
    pullCmd (.ok cfg) (fun _ => c) id v fs w
        = ⟨.ok (), fsWrite fs (id ++ ".md") doc.Text, [ClientCall.GetDocument id v]⟩
    ∧ fsRead (pullCmd (.ok cfg) (fun _ => c) id v fs w).fs (id ++ ".md")
        = some doc.Text := by
  have h1 : pullCmd (.ok cfg) (fun _ => c) id v fs w
      = ⟨.ok (), fsWrite fs (id ++ ".md") doc.Text, [ClientCall.GetDocument id v]⟩ := by
    simp [pullCmd, osWriteFile, hget, hw]
  exact ⟨h1, by rw [h1]; exact fsRead_fsWrite fs (id ++ ".md") doc.Text⟩

/-- Witness for C7: the stub returning `{id: "doc123", text: "# Test
Content"}` yields a file doc123.md with exactly that content. -/
theorem pull_writes_text_verbatim_witness :
    pullCmd (.ok cfgEx) (fun _ => stubClientOk) "doc123" false [] writeOk
        = ⟨.ok (), fsWrite [] ("doc123" ++ ".md") "# Test Content",
           [ClientCall.GetDocument "doc123" false]⟩
    ∧ fsRead (pullCmd (.ok cfgEx) (fun _ => stubClientOk) "doc123" false [] writeOk).fs
        ("doc123" ++ ".md") = some "# Test Content" :=
  pull_writes_text_verbatim cfgEx stubClientOk "doc123" false [] writeOk
    ⟨"doc123", "Test", "# Test Content", 1⟩ rfl rfl

/-- Claim C8 counterexample: pull is not atomic with respect to its output
file. In the environment where `os.WriteFile` fails after one byte, a pull
of "# Test Content" fails with "writing file: disk full" and leaves
doc123.md holding "#" — neither empty nor the full content, a partial
file. -/
theorem pull_partial_file_on_write_error :
    pullCmd (.ok cfgEx) (fun _ => stubClientOk) "doc123" false [] wFailPartial
      = ⟨.error ("writing file: " ++ "disk full"),
         fsWrite [] ("doc123" ++ ".md") "#", [ClientCall.GetDocument "doc123" false]⟩
    ∧ ("#" : String) ≠ "" ∧ ("#" : String) ≠ "# Test Content" := by
  refine ⟨?_, by decide, by decide⟩
  simp [pullCmd, osWriteFile, stubClientOk, wFailPartial]
  decide

/-- Claim C8 (amended): when GetDocument fails with `e`, pull fails with
"fetching document: {e}" and leaves the working directory untouched (the
write stage is never reached, so no file is created). When the fetch
succeeds, the outcome depends on the write: the directory is unchanged
(failed open), or `{id}.md` holds the document's full text (completed
write), or — because `os.WriteFile` truncates before writing — a write
that fails after `k` bytes leaves `{id}.md` holding only the first `k`
bytes of the text and the command fails with "writing file: {cause}". -/
theorem pull_fetch_error_writes_nothing (cfg : Config) (c : Client)
    (id : String) (v : Bool) (fs : FS) (w : WriteEnv) :
    (∀ e, c.GetDocument id v = .error e →
        pullCmd (.ok cfg) (fun _ => c) id v fs w
          = ⟨.error ("fetching document: " ++ e), fs, [ClientCall.GetDocument id v]⟩)
    ∧ ((pullCmd (.ok cfg) (fun _ => c) id v fs w).fs = fs
        ∨ ∃ doc, c.GetDocument id v = .ok doc
            ∧ ((w (id ++ ".md") doc.Text = .success
                ∧ pullCmd (.ok cfg) (fun _ => c) id v fs w
                    = ⟨.ok (), fsWrite fs (id ++ ".md") doc.Text,
                       [ClientCall.GetDocument id v]⟩)
              ∨ ∃ k e, w (id ++ ".md") doc.Text = .writeError k e
                ∧ pullCmd (.ok cfg) (fun _ => c) id v fs w
                    = ⟨.error ("writing file: " ++ e),
                       fsWrite fs (id ++ ".md") (doc.Text.take k),
                       [ClientCall.GetDocument id v]⟩)) := by
  constructor
  · intro e he
    simp [pullCmd, he]
  · cases hget : c.GetDocument id v with
    | error e => exact Or.inl (by simp [pullCmd, hget])
    | ok doc =>
      cases hw : w (id ++ ".md") doc.Text with
      | openError e => exact Or.inl (by simp [pullCmd, osWriteFile, hget, hw])
      | writeError k e =>
        exact Or.inr ⟨doc, rfl,
          Or.inr ⟨k, e, hw, by simp [pullCmd, osWriteFile, hget, hw]⟩⟩
      | success =>
        exact Or.inr ⟨doc, rfl,
          Or.inl ⟨hw, by simp [pullCmd, osWriteFile, hget, hw]⟩⟩

/-- Witness for C8 (amended): the stub erroring with "API error" makes pull
fail with "fetching document: API error" and write nothing. -/
theorem pull_fetch_error_writes_nothing_witness :
    pullCmd (.ok cfgEx) (fun _ => stubClientErr) "doc123" false [] writeOk
      = ⟨.error ("fetching document: " ++ "API error"), [],
         [ClientCall.GetDocument "doc123" false]⟩ :=
  (pull_fetch_error_writes_nothing cfgEx stubClientErr "doc123" false [] writeOk).1
    "API error" rfl

/-- Claim C3 counterexample: the ListDocuments request of the transport
client carries no Content-Type header at all, refuting the claim that every
request of the three operations carries a JSON Content-Type header. -/
theorem listDocuments_request_lacks_content_type :
    headerVal (listDocumentsRequest cfgEx).headers "Content-Type"
      ≠ some "application/json" := by
  decide

/-- Claim C3 (amended): every request carries Authorization
"Bearer {APIKey}"; GetDocument and UpdateDocument requests also carry JSON
Content-Type and Accept headers, while the ListDocuments request carries
the JSON Accept header but sets no Content-Type. -/
theorem transport_request_headers (cfg : Config) (docID content : String) :
    headerVal (getDocumentRequest cfg docID).headers "Authorization"
        = some ("Bearer " ++ cfg.APIKey)
    ∧ headerVal (getDocumentRequest cfg docID).headers "Content-Type"
        = some "application/json"
    ∧ headerVal (getDocumentRequest cfg docID).headers "Accept"
        = some "application/json"
    ∧ headerVal (updateDocumentRequest cfg docID content).headers "Authorization"
        = some ("Bearer " ++ cfg.APIKey)
    ∧ headerVal (updateDocumentRequest cfg docID content).headers "Content-Type"
        = some "application/json"
    ∧ headerVal (updateDocumentRequest cfg docID content).headers "Accept"
        = some "application/json"
    ∧ headerVal (listDocumentsRequest cfg).headers "Authorization"
        = some ("Bearer " ++ cfg.APIKey)
    ∧ headerVal (listDocumentsRequest cfg).headers "Accept"
        = some "application/json"
    ∧ headerVal (listDocumentsRequest cfg).headers "Content-Type" = none :=
  ⟨rfl, rfl, rfl, rfl, rfl, rfl, rfl, rfl, rfl⟩

/-- Claim C4 counterexample: `normalizeURL` strips every trailing slash,
not exactly one — on "http://host//" it disagrees with the
stripped-exactly-one reading of the spec sentence. -/
theorem normalizeURL_strips_more_than_one_slash :
    normalizeURL "http://host//" ≠ stripOneTrailingSlashSpec "http://host//" := by
  decide

/-- Claim C4 (amended): `normalizeURL` strips all trailing '/' characters
before the endpoint path is appended; consequently a base URL with a
trailing slash and the same base URL without it produce character-identical
request URLs for every operation. -/
theorem normalizeURL_trailing_slash_insensitive (k b docID content : String) :
    normalizeURL (b ++ "/") = normalizeURL b
    ∧ (getDocumentRequest ⟨k, b ++ "/"⟩ docID).url
        = (getDocumentRequest ⟨k, b⟩ docID).url
    ∧ (updateDocumentRequest ⟨k, b ++ "/"⟩ docID content).url
        = (updateDocumentRequest ⟨k, b⟩ docID content).url
    ∧ (listDocumentsRequest ⟨k, b ++ "/"⟩).url
        = (listDocumentsRequest ⟨k, b⟩).url := by
  have h := normalizeURL_append_slash b
  exact ⟨h, by simp [getDocumentRequest, h], by simp [updateDocumentRequest, h],
    by simp [listDocumentsRequest, h]⟩

/-- Claim C9: the verbose flag is observational only — for every operation,
input and network behaviour, the returned value and error are identical
with verbose on and off; only the diagnostic lines differ. -/
theorem verbose_flag_noninterference (cfg : Config) (docID content : String)
    (exec : HTTPRequest → ExecOutcome) :
    (client.GetDocument cfg docID true exec).1
        = (client.GetDocument cfg docID false exec).1
    ∧ (client.UpdateDocument cfg docID content true exec).1
        = (client.UpdateDocument cfg docID content false exec).1
    ∧ (client.ListDocuments cfg true exec).1
        = (client.ListDocuments cfg false exec).1 := by
  refine ⟨?_, ?_, ?_⟩
  · simp only [client.GetDocument]
    cases exec (getDocumentRequest cfg docID) with
    | transportError e => rfl
    | bodyReadError e => rfl
    | response r =>
      by_cases h : r.StatusCode = 200 <;> simp only [h, if_true, if_false, reduceIte]
      · cases decodeInfoResponse r.body <;> rfl
      · cases decodeApiError r.body <;> rfl
  · simp only [client.UpdateDocument]
    cases exec (updateDocumentRequest cfg docID content) with
    | transportError e => rfl
    | bodyReadError e => rfl
    | response r =>
      by_cases h : r.StatusCode = 200 <;> simp only [h, if_true, if_false, reduceIte]
  · simp only [client.ListDocuments]
    cases exec (listDocumentsRequest cfg) with
    | transportError e => rfl
    | bodyReadError e => rfl
    | response r =>
      by_cases h : r.StatusCode = 200 <;> simp only [h, if_true, if_false, reduceIte]
      · cases decodeListResponse r.body <;> rfl

/-- Claim C5: on every non-200 response, GetDocument returns an error and
no document — the message is "API error: {error} - {message}" when the body
unmarshals as the error envelope, else the raw status code and body. -/
theorem getDocument_non200_error_envelope (cfg : Config) (docID : String)
    (v : Bool) (exec : HTTPRequest → ExecOutcome) (r : HTTPResponse)
    (hexec : exec (getDocumentRequest cfg docID) = .response r)
    (hst : r.StatusCode ≠ 200) :
    (client.GetDocument cfg docID v exec).1
      = (match decodeApiError r.body with
         | some ae => .error ("API error: " ++ ae.Error ++ " - " ++ ae.Message)
         | none => .error ("unexpected status code: " ++ toString r.StatusCode ++
             ", body: " ++ rawBody r.body))
    ∧ ∀ d, (client.GetDocument cfg docID v exec).1 ≠ Except.ok d := by
  have h1 : (client.GetDocument cfg docID v exec).1
      = (match decodeApiError r.body with
         | some ae => .error ("API error: " ++ ae.Error ++ " - " ++ ae.Message)
         | none => .error ("unexpected status code: " ++ toString r.StatusCode ++
             ", body: " ++ rawBody r.body)) := by
    simp only [client.GetDocument, hexec]
    rw [if_neg hst]
    cases decodeApiError r.body <;> rfl
  refine ⟨h1, ?_⟩
  intro d hd
  rw [h1] at hd
  cases h2 : decodeApiError r.body <;> rw [h2] at hd <;> simp at hd

/-- Witness for C5: a 404 response with a structured envelope yields the
formatted API error message. -/
theorem getDocument_non200_error_envelope_witness :
    (client.GetDocument cfgEx "doc123" false execApiError).1
      = .error ("API error: " ++ "not_found" ++ " - " ++ "missing") := by
  have h := (getDocument_non200_error_envelope cfgEx "doc123" false execApiError
    ⟨404, .json (.obj [("error", .str "not_found"), ("message", .str "missing")])⟩
    rfl (by decide)).1
  simpa using h

end OutlineCli
